import Mathlib

/-!
Verification of the Test Studio run-comparison engine and run orchestration.

The comparison engine is `src/ui/src/components/test-studio/TestComparison.jsx`;
its cell computations, the complete/incomplete partition, the configuration-diff
gating and the token aggregation are embedded below as executable functions over
a model of (parsed) JSON metric documents.  JavaScript numbers are modelled as
rationals (exact arithmetic; IEEE-754 rounding noise is outside the model);
string leaves inside metric documents are outside the model as JavaScript
coerces them by separate string rules, and no compared metric field is
string-valued.  JavaScript `null` and `undefined` are conflated as `JVal.jnull`:
every field access in the embedded code is optional-chained or guarded, and the
two are indistinguishable under those guards.

The run-orchestration backend (the TestRunner, TestFileCopier and finalize
lambdas and the DynamoDB tracking table) is documented in the repository but its
code is not present; it is modelled from the specification, as marked on each
definition.
-/

namespace TestStudio

/-- Model of a parsed JSON value as manipulated by TestComparison.jsx
(metric documents `testRun.test` / `testRun.baseline` and their sub-objects).
Object fields model JavaScript object entries, which are key-unique. -/
inductive JVal where
  | jnull : JVal
  | jnum : ℚ → JVal
  | jbool : Bool → JVal
  | jobj : List (String × JVal) → JVal

/-- JavaScript truthiness for the modelled values: `null`/`undefined`, `0`
and `false` are falsy; every object is truthy. -/
def truthy : JVal → Bool
  | .jnull => false
  | .jnum q => q != 0
  | .jbool b => b
  | .jobj _ => true

/-- Member access as used in the source, always under optional chaining or a
guard: a missing key, a primitive receiver, or a nullish receiver yields
`undefined` (modelled as `jnull`). -/
def getF : JVal → String → JVal
  | .jobj fs, k =>
      match fs.lookup k with
      | some v => v
      | none => .jnull
  | _, _ => .jnull

/-- JavaScript numeric coercion performed by `*`, `-` and `/`; `none` stands
for `NaN` (objects coerce to `NaN`, booleans to 0/1).  The `jnull` case is
never reached behind the truthiness/nullish guards of the embedded code,
where the conflation of `null` (which coerces to 0) with `undefined` (which
coerces to `NaN`) would matter. -/
def toNum : JVal → Option ℚ
  | .jnull => none
  | .jnum q => some q
  | .jbool b => some (if b then 1 else 0)
  | .jobj _ => none

/-- Fractional digits of `n` padded with leading zeros to width `p`. -/
def padZeros (p : ℕ) (n : ℕ) : String :=
  let d := toString n
  String.mk (List.replicate (p - d.length) '0') ++ d

/-- Magnitude of `q` rounded to `p` decimal digits, ties away from zero,
returned as an integer count of `10^(-p)` units.  Computed from the reduced
numerator/denominator: `round(|q| * 10^p) = (2*|q.num|*10^p + q.den) / (2*q.den)`
in natural division. -/
def roundMag (p : ℕ) (q : ℚ) : ℕ :=
  (2 * q.num.natAbs * 10 ^ p + q.den) / (2 * q.den)

/-- Model of JavaScript `Number.prototype.toFixed(p)` on a finite number:
the sign of the argument followed by the magnitude rounded to `p` digits,
ties away from zero, as ECMA-262 specifies (for exact decimal inputs). -/
def fixFmt (p : ℕ) (q : ℚ) : String :=
  let s := if q.num < 0 then "-" else ""
  let m := roundMag p q
  s ++ toString (m / 10 ^ p) ++ "." ++ padZeros p (m % 10 ^ p)

/-- Signed hundredths recovered by `parseFloat` from a `toFixed(2)` string:
`parseFloat(x.toFixed(2)) = jsRound2 x / 100`. -/
def jsRound2 (q : ℚ) : ℤ :=
  if q.num < 0 then -(roundMag 2 q : ℤ) else (roundMag 2 q : ℤ)

/-- Default JavaScript rendering (template interpolation) of a non-negative
number worth `m` hundredths: the shortest decimal form, trailing zeros
dropped. -/
def hundredthsStr (m : ℕ) : String :=
  if m % 100 = 0 then toString (m / 100)
  else if m % 10 = 0 then toString (m / 100) ++ "." ++ toString (m / 10 % 10)
  else toString (m / 100) ++ "." ++ padZeros 2 (m % 100)

/-- One entry of the `compareTestRuns` metrics map as consumed by
TestComparison.jsx (GraphQL `TestRun`, with `test`/`baseline` already parsed
from their JSON-string transport form, as lines 78-80 and the
`typeof ... === 'string' ? JSON.parse(...)` accesses do). -/
structure TestRunDoc where
  status : String
  testSetName : String
  accuracySimilarity : Option ℚ
  confidenceSimilarity : Option ℚ
  filesCount : Option ℤ
  test : JVal
  baseline : JVal

/-- Lines 129-131: the metrics entries kept as complete,
`Object.entries(comparisonData.metrics).filter(([, testRun]) => testRun.status === 'COMPLETE')`. -/
def completeTestRuns (metrics : List (String × TestRunDoc)) : List (String × TestRunDoc) :=
  metrics.filter (fun p => p.2.status == "COMPLETE")

/-- Lines 133-135: `Object.values(comparisonData.metrics).some((testRun) => testRun.status !== 'COMPLETE')`. -/
def hasIncompleteRuns (metrics : List (String × TestRunDoc)) : Bool :=
  metrics.any (fun p => p.2.status != "COMPLETE")

/-- The leaf `test?.accuracy?.accuracy` (line 196). -/
def testAccuracyLeaf (m : TestRunDoc) : JVal :=
  getF (getF m.test "accuracy") "accuracy"

/-- The leaf `test?.confidence?.average_confidence` (lines 221-222). -/
def testConfidenceLeaf (m : TestRunDoc) : JVal :=
  getF (getF m.test "confidence") "average_confidence"

/-- The leaf `test?.accuracy?.precision` (line 282). -/
def testPrecisionLeaf (m : TestRunDoc) : JVal :=
  getF (getF m.test "accuracy") "precision"

/-- The leaf `test?.accuracy?.recall` (line 294). -/
def testRecallLeaf (m : TestRunDoc) : JVal :=
  getF (getF m.test "accuracy") "recall"

/-- The leaf `test?.accuracy?.f1_score` (line 306). -/
def testF1Leaf (m : TestRunDoc) : JVal :=
  getF (getF m.test "accuracy") "f1_score"

/-- The leaf `test?.cost?.total_cost` (line 348). -/
def testCostLeaf (m : TestRunDoc) : JVal :=
  getF (getF m.test "cost") "total_cost"

/-- The leaf `baseline?.cost?.total_cost` (line 360). -/
def baselineCostLeaf (m : TestRunDoc) : JVal :=
  getF (getF m.baseline "cost") "total_cost"

/-- Lines 196-198, Accuracy row: nullish check, then
`(test.accuracy.accuracy * 100).toFixed(2) + '%'`; multiplying a non-numeric
non-nullish leaf gives `NaN`, rendered "NaN%". -/
def accuracyCell (m : TestRunDoc) : String :=
  match testAccuracyLeaf m with
  | .jnull => "N/A"
  | v =>
      match toNum v with
      | some q => fixFmt 2 (q * 100) ++ "%"
      | none => "NaN%"

/-- Lines 208-210, Accuracy Change row: nullish check on the scalar
`metrics.accuracySimilarity`, then `.toFixed(2)`. -/
def accuracyChangeCell (m : TestRunDoc) : String :=
  match m.accuracySimilarity with
  | some q => fixFmt 2 q
  | none => "N/A"

/-- Lines 221-224, Confidence row (same shape as the Accuracy row). -/
def confidenceCell (m : TestRunDoc) : String :=
  match testConfidenceLeaf m with
  | .jnull => "N/A"
  | v =>
      match toNum v with
      | some q => fixFmt 2 (q * 100) ++ "%"
      | none => "NaN%"

/-- Line 234, Files Processed row: `metrics.filesCount || 'N/A'`. -/
def filesCountCell (m : TestRunDoc) : String :=
  match m.filesCount with
  | some n => if n = 0 then "N/A" else toString n
  | none => "N/A"

/-- Lines 271 and 339, Test Set rows: `testRun.testSetName || 'N/A'`. -/
def testSetCell (m : TestRunDoc) : String :=
  if m.testSetName = "" then "N/A" else m.testSetName

/-- The cell pattern of the Accuracy Breakdown rows (lines 282, 294, 306):
`v ? (v * 100).toFixed(2) + '%' : 'N/A'` — presence tested by truthiness. -/
def pctOrNA (v : JVal) : String :=
  if truthy v then
    match toNum v with
    | some q => fixFmt 2 (q * 100) ++ "%"
    | none => "NaN%"
  else "N/A"

/-- Line 282, Test Precision row. -/
def precisionCell (m : TestRunDoc) : String :=
  pctOrNA (testPrecisionLeaf m)

/-- Line 294, Test Recall row. -/
def recallCell (m : TestRunDoc) : String :=
  pctOrNA (testRecallLeaf m)

/-- Line 306, Test F1 Score row. -/
def f1Cell (m : TestRunDoc) : String :=
  pctOrNA (testF1Leaf m)

/-- The cell pattern of the cost rows (lines 348, 360):
`v ? '$' + v.toFixed(4) : 'N/A'`.  Calling `.toFixed` on a truthy
non-number (boolean or object) throws a TypeError, modelled as `none`. -/
def dollarsOrNA (v : JVal) : Option String :=
  if truthy v then
    match v with
    | .jnum q => some ("$" ++ fixFmt 4 q)
    | _ => none
  else some "N/A"

/-- Line 348, Test Cost row (`none` models a thrown TypeError). -/
def testCostCell (m : TestRunDoc) : Option String :=
  dollarsOrNA (testCostLeaf m)

/-- Line 360, Baseline Cost row (`none` models a thrown TypeError). -/
def baselineCostCell (m : TestRunDoc) : Option String :=
  dollarsOrNA (baselineCostLeaf m)

/-- Lines 368-384, Cost Change row: the raw change string
`test?.cost?.total_cost && baseline?.cost?.total_cost ?
 ((t-b)/b*100).toFixed(2) + '%' + ((t-b)/b > 0 ? ' ↑' : ' ↓') : 'N/A'`.
Coercing a truthy non-numeric operand yields `NaN`, rendered "NaN%" with
the down arrow (`NaN > 0` is false). -/
def costChangeRaw (m : TestRunDoc) : String :=
  if truthy (testCostLeaf m) && truthy (baselineCostLeaf m) then
    match toNum (testCostLeaf m), toNum (baselineCostLeaf m) with
    | some qt, some qb =>
        fixFmt 2 ((qt - qb) / qb * 100) ++ "%" ++
          (if (qt - qb) / qb > 0 then " ↑" else " ↓")
    | _, _ => "NaN%" ++ " ↓"
  else "N/A"

/-- Aggregated token counts (lines 429, 449, 460, 473). -/
structure Tokens where
  inputTokens : ℚ
  outputTokens : ℚ
  totalTokens : ℚ
deriving DecidableEq

/-- The contribution `(v || 0)` of one token field under numeric addition:
the value when truthy and numeric, 0 when falsy or absent; a truthy boolean
contributes 1 as JavaScript `+` coerces it.  (An object-valued token field,
which JavaScript `+` would fold into a string, is outside the numeric model;
token counts in the metric documents are JSON numbers.) -/
def orZeroNum (v : JVal) : ℚ :=
  if truthy v then
    match toNum v with
    | some q => q
    | none => 0
  else 0

/-- Lines 433-435: add one sub-usage entry's three token fields, each
`usage[key].xxxTokens || 0`. -/
def addTokens (tk : Tokens) (v : JVal) : Tokens :=
  { inputTokens := tk.inputTokens + orZeroNum (getF v "inputTokens"),
    outputTokens := tk.outputTokens + orZeroNum (getF v "outputTokens"),
    totalTokens := tk.totalTokens + orZeroNum (getF v "totalTokens") }

/-- Line 432: `key.includes('bedrock')`. -/
def keyIsBedrock (k : String) : Bool :=
  decide ("bedrock".data <:+: k.data)

/-- Lines 428-440, `aggregateTokens(usage)`: over each own key of the usage
object, when the key includes 'bedrock' and the entry is truthy, accumulate
its token fields; any non-object usage value contributes nothing
(`Object.keys` of a primitive is empty, falsy values skip the loop). -/
def aggregateTokens (usage : JVal) : Tokens :=
  match usage with
  | .jobj fs =>
      fs.foldl
        (fun tk kv => if keyIsBedrock kv.1 && truthy kv.2 then addTokens tk kv.2 else tk)
        { inputTokens := 0, outputTokens := 0, totalTokens := 0 }
  | _ => { inputTokens := 0, outputTokens := 0, totalTokens := 0 }

/-- Specification-side aggregate for claim C6, written from the claim's words:
the componentwise sums, over exactly those sub-usage entries whose key
indicates a model-invocation source (the 'bedrock' key marker), of that
entry's `inputTokens`, `outputTokens` and `totalTokens`, each treated as 0
when absent. -/
def specTokenSums (fs : List (String × JVal)) : Tokens :=
  let picked := fs.filter (fun kv => keyIsBedrock kv.1)
  { inputTokens := (picked.map (fun kv => orZeroNum (getF kv.2 "inputTokens"))).sum,
    outputTokens := (picked.map (fun kv => orZeroNum (getF kv.2 "outputTokens"))).sum,
    totalTokens := (picked.map (fun kv => orZeroNum (getF kv.2 "totalTokens"))).sum }

/-- Lines 417-426, `calculateChange(testVal, baselineVal)` for the usage
table: 'N/A' for a falsy baseline, otherwise
`Math.abs(parseFloat(((t-b)/b*100).toFixed(2)))` rendered in default number
form with an arrow only when the rounded change is nonzero.  Operands are the
aggregated token sums, hence always numbers. -/
def calculateChange (testVal baselineVal : ℚ) : String :=
  if baselineVal = 0 then "N/A"
  else
    let n := jsRound2 ((testVal - baselineVal) / baselineVal * 100)
    let arrow := if 0 < n then " ↑" else if n < 0 then " ↓" else ""
    hundredthsStr n.natAbs ++ "%" ++ arrow

/-- Lines 467-473, Total Token Change row: aggregate each side's usage, then
compare total tokens. -/
def totalTokenChangeCell (m : TestRunDoc) : String :=
  calculateChange (aggregateTokens (getF m.test "usage")).totalTokens
    (aggregateTokens (getF m.baseline "usage")).totalTokens

/-- One row of the configuration table (`{setting, values}`); values are
opaque to the claims settled here. -/
structure ConfigRow where
  setting : String
  values : List (String × String)

/-- The four mutually exclusive states of the Configuration Differences
section (lines 141-176). -/
inductive ConfigSection where
  | diffTable : List ConfigRow → ConfigSection
  | identicalMsg : ConfigSection
  | noDataMsg : ConfigSection
  | notTwoRunsMsg : ℕ → ConfigSection

/-- Lines 143-175: the Configuration Differences section rendered from the
supplied id count (`preSelectedTestRunIds.length`) and the fetched
`comparisonData.configs` (absent modelled as `none`).  Exactly two ids enter
the diff path; any other count yields the informational message. -/
def configSection (numIds : ℕ) (configs : Option (List ConfigRow)) : ConfigSection :=
  if numIds = 2 then
    match configs with
    | some rows =>
        if rows.length > 0 then
          (if rows.length > 0 then .diffTable rows else .identicalMsg)
        else .noDataMsg
    | none => .noDataMsg
  else .notTwoRunsMsg numIds

/-- The Accuracy row across the complete runs (lines 190-201): one cell per
run, each computed from that run's record only. -/
def accuracyRow (runs : List (String × TestRunDoc)) : List (String × String) :=
  runs.map (fun p => (p.1, accuracyCell p.2))

/-- The Test Precision row across the complete runs (lines 276-284). -/
def precisionRow (runs : List (String × TestRunDoc)) : List (String × String) :=
  runs.map (fun p => (p.1, precisionCell p.2))

/-- The Test Cost row across the complete runs (lines 343-351): building the
items array evaluates every run's cell, so a thrown TypeError (`none`) in any
one cell aborts the whole table. -/
def testCostRow (runs : List (String × TestRunDoc)) : Option (List (String × String)) :=
  runs.mapM (fun p => (testCostCell p.2).map (fun s => (p.1, s)))

/-- Modelled from the spec: the status state machine of a TestRun
(the TestRunner / TestFileCopier / finalize lambdas named by the repository
documentation are not present in the source tree).  Statuses are
QUEUED, PROCESSING, RUNNING (active) and COMPLETED, FAILED (terminal). -/
inductive RunStatus where
  | queued : RunStatus
  | processing : RunStatus
  | running : RunStatus
  | completed : RunStatus
  | failed : RunStatus
deriving DecidableEq

/-- COMPLETED and FAILED are the terminal statuses. -/
def isTerminal : RunStatus → Bool
  | .completed => true
  | .failed => true
  | _ => false

/-- A status is active (holds the single-flight lock) when not terminal. -/
def isActive (st : RunStatus) : Bool :=
  !(isTerminal st)

/-- Modelled from the spec: one TestRun record of the Run Record Store
(the DynamoDB tracking table, absent from the source tree).  Metric
documents are opaque here. -/
structure RunRecord where
  status : RunStatus
  filesCount : ℕ
  errorMessage : Option String
  metricsDoc : Option String
deriving DecidableEq

/-- Modelled from the spec: the Run Record Store (the DynamoDB tracking
table, absent from the source tree) as keyed TestRun records (`testRunId`
keys, unique by construction since `submit` refuses an existing id — ids
are never reused). -/
abbrev Store : Type := List (String × RunRecord)

/-- Modelled from the spec: the operations that create or update a run.
`submit` is the Submission Service write (§4.3 step 4); `pickup` and
`copyResult` are the Execution Worker transitions (§4.4 steps 2-4);
`finalize` is the downstream completion path (§4.4 step 5); `sweepFail` is
the error escape hatch marking a non-terminal run FAILED. -/
inductive Op where
  | submit : String → ℕ → Op
  | pickup : String → Op
  | copyResult : String → Bool → String → Op
  | finalize : String → Bool → String → Op
  | sweepFail : String → String → Op

/-- Modelled from the spec: the initial record written by `submit` — status
QUEUED, counters zero. -/
def initialRecord (fc : ℕ) : RunRecord :=
  { status := .queued, filesCount := fc, errorMessage := none, metricsDoc := none }

/-- Modelled from the spec: apply one operation to the store with the
conditional-write semantics of §4.1/§5 — every status write is a
compare-and-swap keyed on the expected prior status, and `submit` refuses
(leaves the store unchanged, surfacing Conflict) while any run is active or
the id already exists.
- `submit` : create a QUEUED record behind the Concurrency Guard;
- `pickup` : QUEUED → PROCESSING;
- `copyResult` : PROCESSING → RUNNING on success, → FAILED with the error on
  failure;
- `finalize` : RUNNING → COMPLETED with metrics, or → FAILED;
- `sweepFail` : any non-terminal → FAILED. -/
def applyOp : Op → Store → Store
  | .submit id fc, s =>
      if s.any (fun p => isActive p.2.status) || (s.lookup id).isSome then s
      else s ++ [(id, initialRecord fc)]
  | .pickup id, s =>
      s.map (fun p =>
        (p.1, if p.1 = id ∧ p.2.status = .queued then { p.2 with status := .processing } else p.2))
  | .copyResult id ok err, s =>
      s.map (fun p =>
        (p.1,
          if p.1 = id ∧ p.2.status = .processing then
            if ok then { p.2 with status := .running }
            else { p.2 with status := .failed, errorMessage := some err }
          else p.2))
  | .finalize id ok doc, s =>
      s.map (fun p =>
        (p.1,
          if p.1 = id ∧ p.2.status = .running then
            if ok then { p.2 with status := .completed, metricsDoc := some doc }
            else { p.2 with status := .failed, errorMessage := some doc }
          else p.2))
  | .sweepFail id err, s =>
      s.map (fun p =>
        (p.1,
          if p.1 = id ∧ isTerminal p.2.status = false then
            { p.2 with status := .failed, errorMessage := some err }
          else p.2))

/-- The store reached from the empty store by a sequence of operations;
every instant of every execution is `exec ops` for some prefix `ops`. -/
def exec (ops : List Op) : Store :=
  ops.foldl (fun s op => applyOp op s) []

/-- The number of records holding a non-terminal status. -/
def countActive (s : Store) : ℕ :=
  (s.filter (fun p => isActive p.2.status)).length

/-- The status the store records for one `testRunId`. -/
def statusOf (s : Store) (id : String) : Option RunStatus :=
  (s.lookup id).map RunRecord.status

/-- The transitions the spec permits: one forward step along
QUEUED < PROCESSING < RUNNING < COMPLETED, or a jump to FAILED from any
non-terminal status. -/
def StatusTrans (a b : RunStatus) : Prop :=
  (a = .queued ∧ b = .processing) ∨ (a = .processing ∧ b = .running) ∨
    (a = .running ∧ b = .completed) ∨ (isTerminal a = false ∧ b = .failed)

/-- One observable step of a run's recorded status: unchanged, freshly
created as QUEUED, or a permitted transition. -/
def AllowedStep (x y : Option RunStatus) : Prop :=
  y = x ∨ (x = none ∧ y = some .queued) ∨
    (∃ a b, x = some a ∧ y = some b ∧ StatusTrans a b)

/-- Modelled from the spec: the work-order passed from the Submission
Service to the Execution Worker (§3, §6; the SQS message format of the
repository documentation); status is always re-read from the store, never
trusted from the message. -/
structure QueueMessage where
  testRunId : String
  filePattern : String
  inputBucket : String
  baselineBucket : String
  trackingTable : String

/-- Modelled from the spec: the Execution Worker's handling of one delivered
QueueMessage (§4.4 steps 1-4).  Re-fetch the run; discard the message when
the run is missing or already terminal; otherwise take QUEUED → PROCESSING
and apply the file-copy outcome (`copyOk`). -/
def processMessage (msg : QueueMessage) (copyOk : Bool) (err : String) (s : Store) : Store :=
  match statusOf s msg.testRunId with
  | none => s
  | some st =>
      if isTerminal st then s
      else applyOp (.copyResult msg.testRunId copyOk err) (applyOp (.pickup msg.testRunId) s)

/-- A complete run (the status string the code tests for) with empty metric
documents; base point for the concrete runs below. -/
def emptyDoc : TestRunDoc :=
  { status := "COMPLETE", testSetName := "invoices", accuracySimilarity := none,
    confidenceSimilarity := none, filesCount := some 3, test := .jobj [], baseline := .jobj [] }

/-- A complete run whose two metric documents carry only `cost.total_cost`
leaves `t` (test side) and `b` (baseline side). -/
def runCost (t b : JVal) : TestRunDoc :=
  { emptyDoc with
    test := .jobj [("cost", .jobj [("total_cost", t)])],
    baseline := .jobj [("cost", .jobj [("total_cost", b)])] }

/-- A complete run whose test document carries only an `accuracy` sub-object
with the four accuracy leaves set to `v`. -/
def runAcc (v : JVal) : TestRunDoc :=
  { emptyDoc with
    test := .jobj [("accuracy", .jobj
      [("accuracy", v), ("precision", v), ("recall", v), ("f1_score", v)])] }

/-- A terminal (COMPLETED) run record of the modelled Run Record Store. -/
def finishedRecord : RunRecord :=
  { status := .completed, filesCount := 3, errorMessage := none, metricsDoc := some "m" }

/-- A concrete queue message for run-1. -/
def msg1 : QueueMessage :=
  { testRunId := "run-1", filePattern := "lending*", inputBucket := "in",
    baselineBucket := "base", trackingTable := "trk" }

example : completeTestRuns [("r", emptyDoc)] = [("r", emptyDoc)] := rfl
example : completeTestRuns [("r", { emptyDoc with status := "COMPLETED" })] = [] := rfl
example : hasIncompleteRuns [("r", { emptyDoc with status := "COMPLETED" })] = true := rfl
example : testCostLeaf (runCost (.jnum 10) (.jnum 8)) = .jnum 10 := rfl
example : costChangeRaw (runCost (.jnum 10) (.jnum 0)) = "N/A" := by decide
example : costChangeRaw (runCost (.jnum 0) (.jnum 8)) = "N/A" := by decide
example : fixFmt 2 25 = "25.00" := by decide
example : fixFmt 2 (-50) = "-50.00" := by decide
example : fixFmt 4 10 = "10.0000" := by decide
example : hundredthsStr 2500 = "25" := by decide
example : hundredthsStr 1250 = "12.5" := by decide
example : hundredthsStr 5 = "0.05" := by decide
example : keyIsBedrock "bedrock_total" = true := by decide
example : keyIsBedrock "ocr" = false := by decide
example : costChangeRaw (runCost (.jnum 10) (.jnum 8)) = "25.00% ↑" := by
  unfold costChangeRaw
  rw [show testCostLeaf (runCost (.jnum 10) (.jnum 8)) = .jnum 10 from rfl,
      show baselineCostLeaf (runCost (.jnum 10) (.jnum 8)) = .jnum 8 from rfl]
  norm_num [toNum, truthy]
  decide

/-- Claim C1 (code bug).  The comparison partitions the fetched runs on the
literal status string 'COMPLETE' (lines 130, 134), but the repository's own
documentation (docs Test Studio, Status Flow and Test Execution States) and
the data model document the terminal success status as COMPLETED.  A run
carrying the documented status "COMPLETED" is therefore excluded from
`completeTestRuns` — so every metric table drops it — and raises
`hasIncompleteRuns`; only the undocumented literal "COMPLETE" is kept. -/
theorem completed_run_misclassified :
    completeTestRuns [("run-1", { emptyDoc with status := "COMPLETED" })] = [] ∧
    hasIncompleteRuns [("run-1", { emptyDoc with status := "COMPLETED" })] = true ∧
    completeTestRuns [("run-1", emptyDoc)] = [("run-1", emptyDoc)] ∧
    hasIncompleteRuns [("run-1", emptyDoc)] = false :=
  ⟨rfl, rfl, rfl, rfl⟩

/-- Claim C5.  The configuration-difference table is produced only when the
supplied run-id list has length 2 (and the fetched configs are non-empty);
for any other count the section is the distinct informational message, never
a diff; and with exactly 2 ids and a non-empty diff list the table is shown. -/
theorem config_diff_exactly_two :
    (∀ (n : ℕ) (cfgs : Option (List ConfigRow)) (rows : List ConfigRow),
        configSection n cfgs = .diffTable rows → n = 2) ∧
    (∀ (n : ℕ) (cfgs : Option (List ConfigRow)), n ≠ 2 →
        configSection n cfgs = .notTwoRunsMsg n) ∧
    (∀ cfgs : List ConfigRow, cfgs ≠ [] →
        configSection 2 (some cfgs) = .diffTable cfgs) := by
  refine ⟨?_, ?_, ?_⟩
  · intro n cfgs rows h
    by_contra hn
    simp [configSection, hn] at h
  · intro n cfgs hn
    simp [configSection, hn]
  · intro cfgs hc
    have hlen : cfgs.length > 0 := List.length_pos.mpr hc
    simp [configSection, hlen]

/-- Witness for C5: three supplied ids yield the informational message, two
ids with one differing setting yield the table. -/
theorem config_diff_exactly_two_witness :
    (3 : ℕ) ≠ 2 ∧
    configSection 3 (some [{ setting := "model", values := [] }]) = .notTwoRunsMsg 3 ∧
    ([{ setting := "model", values := ([] : List (String × String)) }] : List ConfigRow) ≠ [] ∧
    configSection 2 (some [{ setting := "model", values := [] }]) =
      .diffTable [{ setting := "model", values := [] }] :=
  ⟨by decide, config_diff_exactly_two.2.1 3 _ (by decide), by simp,
    config_diff_exactly_two.2.2 _ (by simp)⟩

/-- Counterexample to claim C2 as stated.  For the run with test total_cost 0
and baseline total_cost 8 the baseline is present, numeric and nonzero, so
the claim's formula clause mandates `((0-8)/8*100).toFixed(2)` with the down
indicator — the string "-100.00% ↓" — but the code's truthiness test on the
test-side cost yields 'N/A' instead.  Further, a truthy non-numeric baseline
(boolean true) is not rendered 'N/A' as the claim requires: it is coerced to
1 and the cell reads "900.00% ↑". -/
theorem cost_change_claim_counterexample :
    costChangeRaw (runCost (.jnum 0) (.jnum 8)) = "N/A" ∧
    fixFmt 2 (((0 : ℚ) - 8) / 8 * 100) ++ "%" ++ " ↓" = "-100.00% ↓" ∧
    costChangeRaw (runCost (.jnum 10) (.jbool true)) = "900.00% ↑" := by
  refine ⟨by decide, ?_, ?_⟩
  · rw [show ((0 : ℚ) - 8) / 8 * 100 = -100 by norm_num]
    decide
  · unfold costChangeRaw
    rw [show testCostLeaf (runCost (.jnum 10) (.jbool true)) = .jnum 10 from rfl,
        show baselineCostLeaf (runCost (.jnum 10) (.jbool true)) = .jbool true from rfl]
    norm_num [toNum, truthy]
    decide

/-- Claim C2, amended.  For every complete run whose test and baseline
`cost.total_cost` are present, numeric and nonzero, the cost-change cell is
`((t-b)/b*100).toFixed(2)` with the up indicator when the relative change is
positive and the down indicator otherwise; the cell is 'N/A' whenever either
side's total_cost is falsy (zero, absent, null or false).  In particular
test 10 against baseline 8 renders "25.00% ↑" and a zero baseline renders
'N/A' (scenario C). -/
theorem cost_change_cell_spec :
    (∀ (m : TestRunDoc) (qt qb : ℚ), testCostLeaf m = .jnum qt →
        baselineCostLeaf m = .jnum qb → qt ≠ 0 → qb ≠ 0 →
        costChangeRaw m =
          fixFmt 2 ((qt - qb) / qb * 100) ++ "%" ++
            (if (qt - qb) / qb > 0 then " ↑" else " ↓")) ∧
    (∀ m : TestRunDoc,
        truthy (testCostLeaf m) = false ∨ truthy (baselineCostLeaf m) = false →
        costChangeRaw m = "N/A") ∧
    costChangeRaw (runCost (.jnum 10) (.jnum 8)) = "25.00% ↑" ∧
    costChangeRaw (runCost (.jnum 10) (.jnum 0)) = "N/A" := by
  refine ⟨?_, ?_, ?_, by decide⟩
  · intro m qt qb ht hb hqt hqb
    unfold costChangeRaw
    rw [ht, hb]
    simp [truthy, toNum, hqt, hqb]
  · intro m h
    unfold costChangeRaw
    rcases h with h | h <;> rw [h] <;> simp
  · unfold costChangeRaw
    rw [show testCostLeaf (runCost (.jnum 10) (.jnum 8)) = .jnum 10 from rfl,
        show baselineCostLeaf (runCost (.jnum 10) (.jnum 8)) = .jnum 8 from rfl]
    norm_num [toNum, truthy]
    decide

/-- Witness for C2 (amended): the formula clause applied at test 10,
baseline 8. -/
theorem cost_change_cell_spec_witness :
    testCostLeaf (runCost (.jnum 10) (.jnum 8)) = .jnum 10 ∧
    baselineCostLeaf (runCost (.jnum 10) (.jnum 8)) = .jnum 8 ∧
    (10 : ℚ) ≠ 0 ∧ (8 : ℚ) ≠ 0 ∧
    costChangeRaw (runCost (.jnum 10) (.jnum 8)) =
      fixFmt 2 (((10 : ℚ) - 8) / 8 * 100) ++ "%" ++
        (if ((10 : ℚ) - 8) / 8 > 0 then " ↑" else " ↓") :=
  ⟨rfl, rfl, by decide, by decide,
    cost_change_cell_spec.1 (runCost (.jnum 10) (.jnum 8)) 10 8 rfl rfl
      (by decide) (by decide)⟩

/-- Counterexample to claim C10 as stated.  With negative costs (test -10,
baseline -8) the test cost is strictly smaller than the baseline cost, yet
the raw change string carries the up indicator: the code's arrow condition
is `(t-b)/b > 0`, which coincides with `t > b` only for positive baselines
and flips for negative ones. -/
theorem cost_arrow_claim_counterexample :
    costChangeRaw (runCost (.jnum (-10)) (.jnum (-8))) = "25.00% ↑" ∧
    ¬((-10 : ℚ) > (-8 : ℚ)) := by
  constructor
  · unfold costChangeRaw
    rw [show testCostLeaf (runCost (.jnum (-10)) (.jnum (-8))) = .jnum (-10) from rfl,
        show baselineCostLeaf (runCost (.jnum (-10)) (.jnum (-8))) = .jnum (-8) from rfl]
    norm_num [toNum, truthy]
    decide
  · norm_num

/-- Claim C10, amended.  The raw cost-change string carries the up indicator
exactly when `(t-b)/b > 0` — equivalently `t > b` whenever the baseline cost
is positive — and the down indicator otherwise; hence two present, nonzero,
equal costs render "0.00% ↓" (a down arrow despite zero change), whereas the
usage `calculateChange` helper appends no arrow when the rounded change is
zero. -/
theorem cost_arrow_amended :
    (∀ (m : TestRunDoc) (qt qb : ℚ), testCostLeaf m = .jnum qt →
        baselineCostLeaf m = .jnum qb → qt ≠ 0 → 0 < qb →
        costChangeRaw m =
          fixFmt 2 ((qt - qb) / qb * 100) ++ "%" ++
            (if qt > qb then " ↑" else " ↓")) ∧
    (∀ (m : TestRunDoc) (qt qb : ℚ), testCostLeaf m = .jnum qt →
        baselineCostLeaf m = .jnum qb → qt = qb → qb ≠ 0 →
        costChangeRaw m = "0.00% ↓") ∧
    (∀ t b : ℚ, b ≠ 0 → t = b → calculateChange t b = "0%") := by
  refine ⟨?_, ?_, ?_⟩
  · intro m qt qb ht hb hqt hqb
    have hqb' : qb ≠ 0 := ne_of_gt hqb
    have hiff : (qt - qb) / qb > 0 ↔ qt > qb := by
      rw [gt_iff_lt, div_pos_iff]
      constructor
      · rintro (⟨h1, _⟩ | ⟨_, h2⟩)
        · linarith
        · linarith
      · intro h
        exact Or.inl ⟨by linarith, hqb⟩
    unfold costChangeRaw
    rw [ht, hb]
    rw [if_pos (by simp [truthy, hqt, hqb'] :
      (truthy (JVal.jnum qt) && truthy (JVal.jnum qb)) = true)]
    show fixFmt 2 ((qt - qb) / qb * 100) ++ "%" ++
        (if (qt - qb) / qb > 0 then " ↑" else " ↓") = _
    congr 1
    exact if_congr hiff rfl rfl
  · intro m qt qb ht hb heq hqb
    subst heq
    unfold costChangeRaw
    rw [ht, hb]
    rw [if_pos (by simp [truthy, hqb] :
      (truthy (JVal.jnum qt) && truthy (JVal.jnum qt)) = true)]
    show fixFmt 2 ((qt - qt) / qt * 100) ++ "%" ++
        (if (qt - qt) / qt > 0 then " ↑" else " ↓") = "0.00% ↓"
    rw [show (qt - qt) / qt * 100 = 0 by simp]
    rw [if_neg (by simp : ¬((qt - qt) / qt > 0))]
    decide
  · intro t b hb heq
    subst heq
    unfold calculateChange
    rw [if_neg hb]
    rw [show (t - t) / t * 100 = 0 by simp]
    decide

/-- Witness for C10 (amended): equal nonzero costs render "0.00% ↓", and
`calculateChange` at equal token totals renders "0%" with no arrow. -/
theorem cost_arrow_amended_witness :
    testCostLeaf (runCost (.jnum 5) (.jnum 5)) = .jnum 5 ∧
    baselineCostLeaf (runCost (.jnum 5) (.jnum 5)) = .jnum 5 ∧
    (5 : ℚ) ≠ 0 ∧
    costChangeRaw (runCost (.jnum 5) (.jnum 5)) = "0.00% ↓" ∧
    (7 : ℚ) ≠ 0 ∧
    calculateChange 7 7 = "0%" :=
  ⟨rfl, rfl, by decide,
    cost_arrow_amended.2.1 (runCost (.jnum 5) (.jnum 5)) 5 5 rfl rfl rfl (by decide),
    by decide, cost_arrow_amended.2.2 7 7 (by decide) rfl⟩

/-- Claim C9.  In the Accuracy Breakdown and Cost Breakdown tables presence
is tested by truthiness, so a field whose numeric value is exactly 0
(precision, recall, f1_score, or either side's total_cost) renders as the
sentinel 'N/A', indistinguishable from the field being absent; by contrast
the Performance Metrics accuracy row tests for null/undefined explicitly and
renders a 0 value as "0.00%". -/
theorem zero_value_sentinel :
    (∀ m : TestRunDoc, testPrecisionLeaf m = .jnum 0 → precisionCell m = "N/A") ∧
    (∀ m : TestRunDoc, testRecallLeaf m = .jnum 0 → recallCell m = "N/A") ∧
    (∀ m : TestRunDoc, testF1Leaf m = .jnum 0 → f1Cell m = "N/A") ∧
    (∀ m : TestRunDoc, testPrecisionLeaf m = .jnull → precisionCell m = "N/A") ∧
    (∀ m : TestRunDoc, testCostLeaf m = .jnum 0 → testCostCell m = some "N/A") ∧
    (∀ m : TestRunDoc, baselineCostLeaf m = .jnum 0 → baselineCostCell m = some "N/A") ∧
    (∀ m : TestRunDoc, testAccuracyLeaf m = .jnum 0 → accuracyCell m = "0.00%") := by
  refine ⟨?_, ?_, ?_, ?_, ?_, ?_, ?_⟩
  · intro m h
    unfold precisionCell pctOrNA
    rw [h]
    decide
  · intro m h
    unfold recallCell pctOrNA
    rw [h]
    decide
  · intro m h
    unfold f1Cell pctOrNA
    rw [h]
    decide
  · intro m h
    unfold precisionCell pctOrNA
    rw [h]
    decide
  · intro m h
    unfold testCostCell dollarsOrNA
    rw [h]
    decide
  · intro m h
    unfold baselineCostCell dollarsOrNA
    rw [h]
    decide
  · intro m h
    unfold accuracyCell
    rw [h]
    show fixFmt 2 ((0 : ℚ) * 100) ++ "%" = "0.00%"
    rw [show ((0 : ℚ) * 100) = 0 by norm_num]
    decide

/-- Witness for C9: a run whose precision and test cost are the number 0
renders 'N/A' in the truthiness-tested rows, while its accuracy of 0 renders
"0.00%" in the Performance Metrics row. -/
theorem zero_value_sentinel_witness :
    testPrecisionLeaf (runAcc (.jnum 0)) = .jnum 0 ∧
    precisionCell (runAcc (.jnum 0)) = "N/A" ∧
    testCostLeaf (runCost (.jnum 0) (.jnum 0)) = .jnum 0 ∧
    testCostCell (runCost (.jnum 0) (.jnum 0)) = some "N/A" ∧
    testAccuracyLeaf (runAcc (.jnum 0)) = .jnum 0 ∧
    accuracyCell (runAcc (.jnum 0)) = "0.00%" :=
  ⟨rfl, zero_value_sentinel.1 (runAcc (.jnum 0)) rfl, rfl,
    zero_value_sentinel.2.2.2.2.1 (runCost (.jnum 0) (.jnum 0)) rfl, rfl,
    zero_value_sentinel.2.2.2.2.2.2 (runAcc (.jnum 0)) rfl⟩

/-! Helper lemmas for token aggregation (claim C6). -/

theorem orZeroNum_getF_of_falsy (v : JVal) (h : truthy v = false) (f : String) :
    orZeroNum (getF v f) = 0 := by
  cases v with
  | jnull => rfl
  | jnum q => rfl
  | jbool b => rfl
  | jobj fs => simp [truthy] at h

theorem aggregate_fold_spec (fs : List (String × JVal)) (tk : Tokens) :
    fs.foldl
        (fun tk kv => if keyIsBedrock kv.1 && truthy kv.2 then addTokens tk kv.2 else tk)
        tk =
      { inputTokens := tk.inputTokens + (specTokenSums fs).inputTokens,
        outputTokens := tk.outputTokens + (specTokenSums fs).outputTokens,
        totalTokens := tk.totalTokens + (specTokenSums fs).totalTokens } := by
  induction fs generalizing tk with
  | nil => simp [specTokenSums]
  | cons kv fs ih =>
      simp only [List.foldl_cons]
      by_cases hk : keyIsBedrock kv.1 = true
      · cases htr : truthy kv.2 with
        | true =>
            rw [if_pos (by simp [hk, htr])]
            rw [ih (addTokens tk kv.2)]
            simp [specTokenSums, List.filter_cons, hk, addTokens, Tokens.mk.injEq,
              add_assoc]
        | false =>
            rw [if_neg (by simp [hk, htr])]
            rw [ih tk]
            simp [specTokenSums, List.filter_cons, hk,
              orZeroNum_getF_of_falsy kv.2 htr, Tokens.mk.injEq]
      · rw [if_neg (by simp [hk])]
        rw [ih tk]
        simp [specTokenSums, List.filter_cons, hk]

/-- Claim C6.  For every usage document, the aggregated token totals are the
componentwise sums, over exactly those sub-usage entries whose key indicates
a model-invocation source (contains 'bedrock'), of that entry's
`inputTokens`, `outputTokens` and `totalTokens`, each treated as 0 when
absent; entries under every other key contribute nothing.  One such
aggregate is produced per run side (`aggregateTokens` applied to
`test?.usage` and `baseline?.usage`) before any change is computed. -/
theorem aggregate_tokens_spec (fs : List (String × JVal)) :
    aggregateTokens (.jobj fs) = specTokenSums fs := by
  show fs.foldl _ _ = _
  rw [aggregate_fold_spec]
  simp [specTokenSums]

/-- Counterexample to claim C7 as stated.  The claim lets any nested field be
a non-object: with `test.cost.total_cost = true` (truthy, non-numeric) the
Test Cost cell evaluates `true.toFixed(4)`, a TypeError (`none` in the
model) — extraction throws.  And because the items array of the Cost
Breakdown table evaluates every run's cell, the well-formed run-1 is also
lost: one malformed run prevents the other runs' cells from being computed. -/
theorem defensive_extraction_counterexample :
    testCostCell (runCost (.jbool true) (.jnum 8)) = none ∧
    testCostRow
        [("run-1", runCost (.jnum 10) (.jnum 8)),
         ("run-2", runCost (.jbool true) (.jnum 8))] = none :=
  ⟨rfl, rfl⟩

/-- Claim C7, amended.  Extraction of the accuracy, confidence and cost
fields never throws provided every truthy `cost.total_cost` leaf is numeric
(the only leaves on which the code calls `.toFixed` directly); under any
document shape a missing (nullish) field renders the sentinel 'N/A'; and the
non-throwing rows are computed per run, so one run's malformed document
never changes another run's cells. -/
theorem defensive_extraction_amended :
    (∀ m : TestRunDoc,
        ((∃ q, testCostLeaf m = .jnum q) ∨ truthy (testCostLeaf m) = false) →
        ∃ s, testCostCell m = some s) ∧
    (∀ m : TestRunDoc,
        ((∃ q, baselineCostLeaf m = .jnum q) ∨ truthy (baselineCostLeaf m) = false) →
        ∃ s, baselineCostCell m = some s) ∧
    (∀ m : TestRunDoc, testAccuracyLeaf m = .jnull → accuracyCell m = "N/A") ∧
    (∀ m : TestRunDoc, testConfidenceLeaf m = .jnull → confidenceCell m = "N/A") ∧
    (∀ m : TestRunDoc, testPrecisionLeaf m = .jnull → precisionCell m = "N/A") ∧
    (∀ m : TestRunDoc, testCostLeaf m = .jnull → testCostCell m = some "N/A") ∧
    (∀ runs1 runs2 : List (String × TestRunDoc),
        accuracyRow (runs1 ++ runs2) = accuracyRow runs1 ++ accuracyRow runs2) ∧
    (∀ runs1 runs2 : List (String × TestRunDoc),
        precisionRow (runs1 ++ runs2) = precisionRow runs1 ++ precisionRow runs2) := by
  refine ⟨?_, ?_, ?_, ?_, ?_, ?_, ?_, ?_⟩
  · intro m h
    unfold testCostCell dollarsOrNA
    rcases h with ⟨q, hq⟩ | h
    · rw [hq]
      by_cases hz : q = 0
      · subst hz
        exact ⟨"N/A", by decide⟩
      · refine ⟨"$" ++ fixFmt 4 q, ?_⟩
        rw [if_pos (by simp [truthy, hz])]
    · rw [h]
      exact ⟨"N/A", rfl⟩
  · intro m h
    unfold baselineCostCell dollarsOrNA
    rcases h with ⟨q, hq⟩ | h
    · rw [hq]
      by_cases hz : q = 0
      · subst hz
        exact ⟨"N/A", by decide⟩
      · refine ⟨"$" ++ fixFmt 4 q, ?_⟩
        rw [if_pos (by simp [truthy, hz])]
    · rw [h]
      exact ⟨"N/A", rfl⟩
  · intro m h
    unfold accuracyCell
    rw [h]
  · intro m h
    unfold confidenceCell
    rw [h]
  · intro m h
    unfold precisionCell pctOrNA
    rw [h]
    rfl
  · intro m h
    unfold testCostCell dollarsOrNA
    rw [h]
    rfl
  · intro runs1 runs2
    simp [accuracyRow]
  · intro runs1 runs2
    simp [precisionRow]

/-- Witness for C7 (amended): numeric costs produce a cell, a nullish
accuracy leaf renders 'N/A'. -/
theorem defensive_extraction_amended_witness :
    (∃ q, testCostLeaf (runCost (.jnum 10) (.jnum 8)) = JVal.jnum q) ∧
    (∃ s, testCostCell (runCost (.jnum 10) (.jnum 8)) = some s) ∧
    testAccuracyLeaf emptyDoc = .jnull ∧
    accuracyCell emptyDoc = "N/A" :=
  ⟨⟨10, rfl⟩,
    defensive_extraction_amended.1 (runCost (.jnum 10) (.jnum 8)) (Or.inl ⟨10, rfl⟩),
    rfl, defensive_extraction_amended.2.2.1 emptyDoc rfl⟩

/-! Helper lemmas about the Run Record Store model. -/

theorem countActive_nil : countActive [] = 0 := rfl

theorem countActive_map_le (g : String × RunRecord → RunRecord)
    (hg : ∀ p, isActive (g p).status = true → isActive p.2.status = true) (s : Store) :
    countActive (s.map (fun p => (p.1, g p))) ≤ countActive s := by
  induction s with
  | nil => simp [countActive]
  | cons p s ih =>
      simp only [List.map_cons, countActive, List.filter_cons] at ih ⊢
      cases hgp : isActive (g p).status with
      | true =>
          rw [hg p hgp]
          simpa using ih
      | false =>
          cases hp : isActive p.2.status with
          | true => simpa using Nat.le_succ_of_le ih
          | false => simpa using ih

theorem countActive_append (s t : Store) :
    countActive (s ++ t) = countActive s + countActive t := by
  simp [countActive, List.filter_append]

theorem countActive_eq_zero_of_no_active (s : Store)
    (h : s.any (fun p => isActive p.2.status) = false) : countActive s = 0 := by
  simp only [countActive, List.length_eq_zero, List.filter_eq_nil_iff]
  intro p hp
  simpa using List.any_eq_false.mp h p hp

theorem applyOp_preserves_single_flight (op : Op) (s : Store)
    (h : countActive s ≤ 1) : countActive (applyOp op s) ≤ 1 := by
  cases op with
  | submit id fc =>
      simp only [applyOp]
      by_cases hguard : (s.any (fun p => isActive p.2.status) || (s.lookup id).isSome) = true
      · rw [if_pos hguard]; exact h
      · rw [if_neg hguard]
        have hs : s.any (fun p => isActive p.2.status) = false := by
          cases hs : s.any (fun p => isActive p.2.status) with
          | false => rfl
          | true => exact absurd (by rw [hs]; simp) hguard
        have h0 := countActive_eq_zero_of_no_active s hs
        rw [countActive_append, h0]
        simp [countActive, List.filter, initialRecord, isActive, isTerminal]
  | pickup id =>
      refine le_trans (countActive_map_le _ ?_ s) h
      intro p hp
      by_cases hc : p.1 = id ∧ p.2.status = .queued
      · rw [hc.2]; rfl
      · simpa [if_neg hc] using hp
  | copyResult id ok err =>
      refine le_trans (countActive_map_le _ ?_ s) h
      intro p hp
      by_cases hc : p.1 = id ∧ p.2.status = .processing
      · rw [hc.2]; rfl
      · simpa [if_neg hc] using hp
  | finalize id ok doc =>
      refine le_trans (countActive_map_le _ ?_ s) h
      intro p hp
      by_cases hc : p.1 = id ∧ p.2.status = .running
      · rw [hc.2]; rfl
      · simpa [if_neg hc] using hp
  | sweepFail id err =>
      refine le_trans (countActive_map_le _ ?_ s) h
      intro p hp
      by_cases hc : p.1 = id ∧ isTerminal p.2.status = false
      · simp only [if_pos hc] at hp
        simp [isActive, isTerminal] at hp
      · simpa [if_neg hc] using hp

/-- Claim C3.  At every instant of every execution (that is, after every
prefix of every operation sequence applied to the initially empty Run Record
Store), at most one TestRun record holds a non-terminal status (QUEUED,
PROCESSING or RUNNING): the single-flight invariant is preserved by every
operation that creates or updates a run. -/
theorem single_flight_invariant (ops : List Op) : countActive (exec ops) ≤ 1 := by
  suffices h : ∀ (l : List Op) (s : Store), countActive s ≤ 1 →
      countActive (l.foldl (fun s op => applyOp op s) s) ≤ 1 by
    exact h ops [] (by simp [countActive])
  intro l
  induction l with
  | nil => intro s hs; simpa using hs
  | cons op l ih =>
      intro s hs
      exact ih _ (applyOp_preserves_single_flight op s hs)

theorem lookup_map_value (g : String × RunRecord → RunRecord) (s : Store) (id : String) :
    (s.map (fun p => (p.1, g p))).lookup id = (s.lookup id).map (fun v => g (id, v)) := by
  induction s with
  | nil => rfl
  | cons p s ih =>
      obtain ⟨k, v⟩ := p
      simp only [List.map_cons, List.lookup]
      cases hk : (id == k) with
      | true =>
          have : id = k := eq_of_beq hk
          subst this
          rfl
      | false => simpa using ih

theorem statusOf_map (g : String × RunRecord → RunRecord) (s : Store) (id : String) :
    statusOf (s.map (fun p => (p.1, g p))) id =
      (s.lookup id).map (fun v => (g (id, v)).status) := by
  rw [statusOf, lookup_map_value, Option.map_map]
  rfl

theorem lookup_append_store (s t : Store) (id : String) :
    (s ++ t).lookup id = ((s.lookup id).or (t.lookup id)) := by
  induction s with
  | nil => simp [List.lookup]
  | cons p s ih =>
      obtain ⟨k, v⟩ := p
      simp only [List.cons_append, List.lookup]
      cases hk : (id == k) with
      | true => rfl
      | false => simpa using ih

theorem applyOp_allowed_step (op : Op) (s : Store) (id : String) :
    AllowedStep (statusOf s id) (statusOf (applyOp op s) id) := by
  cases op with
  | submit sid fc =>
      simp only [applyOp]
      by_cases hguard : (s.any (fun p => isActive p.2.status) || (s.lookup sid).isSome) = true
      · rw [if_pos hguard]; exact Or.inl rfl
      · rw [if_neg hguard]
        simp only [statusOf, lookup_append_store]
        cases hl : s.lookup id with
        | some v => left; simp
        | none =>
            cases hk : (id == sid) with
            | true =>
                refine Or.inr (Or.inl ⟨rfl, ?_⟩)
                simp [List.lookup, hk, initialRecord]
            | false =>
                left
                simp [List.lookup, hk]
  | pickup sid =>
      simp only [applyOp]
      rw [statusOf_map]
      simp only [statusOf]
      cases hl : s.lookup id with
      | none => exact Or.inl rfl
      | some v =>
          simp only [Option.map]
          by_cases hc : id = sid ∧ v.status = .queued
          · rw [if_pos hc]
            exact Or.inr (Or.inr ⟨v.status, .processing, rfl, rfl, Or.inl ⟨hc.2, rfl⟩⟩)
          · rw [if_neg hc]
            exact Or.inl rfl
  | copyResult sid ok err =>
      simp only [applyOp]
      rw [statusOf_map]
      simp only [statusOf]
      cases hl : s.lookup id with
      | none => exact Or.inl rfl
      | some v =>
          simp only [Option.map]
          by_cases hc : id = sid ∧ v.status = .processing
          · rw [if_pos hc]
            cases ok with
            | true => exact Or.inr (Or.inr ⟨v.status, .running, rfl, rfl, Or.inr (Or.inl ⟨hc.2, rfl⟩)⟩)
            | false =>
                refine Or.inr (Or.inr ⟨v.status, .failed, rfl, rfl, ?_⟩)
                exact Or.inr (Or.inr (Or.inr ⟨by rw [hc.2]; rfl, rfl⟩))
          · rw [if_neg hc]
            exact Or.inl rfl
  | finalize sid ok doc =>
      simp only [applyOp]
      rw [statusOf_map]
      simp only [statusOf]
      cases hl : s.lookup id with
      | none => exact Or.inl rfl
      | some v =>
          simp only [Option.map]
          by_cases hc : id = sid ∧ v.status = .running
          · rw [if_pos hc]
            cases ok with
            | true => exact Or.inr (Or.inr ⟨v.status, .completed, rfl, rfl, Or.inr (Or.inr (Or.inl ⟨hc.2, rfl⟩))⟩)
            | false =>
                refine Or.inr (Or.inr ⟨v.status, .failed, rfl, rfl, ?_⟩)
                exact Or.inr (Or.inr (Or.inr ⟨by rw [hc.2]; rfl, rfl⟩))
          · rw [if_neg hc]
            exact Or.inl rfl
  | sweepFail sid err =>
      simp only [applyOp]
      rw [statusOf_map]
      simp only [statusOf]
      cases hl : s.lookup id with
      | none => exact Or.inl rfl
      | some v =>
          simp only [Option.map]
          by_cases hc : id = sid ∧ isTerminal v.status = false
          · rw [if_pos hc]
            exact Or.inr (Or.inr ⟨v.status, .failed, rfl, rfl, Or.inr (Or.inr (Or.inr ⟨hc.2, rfl⟩))⟩)
          · rw [if_neg hc]
            exact Or.inl rfl

theorem exec_append_single (ops : List Op) (op : Op) :
    exec (ops ++ [op]) = applyOp op (exec ops) := by
  simp [exec, List.foldl_append]

/-- Claim C4.  For every `testRunId`, each operation moves its recorded
status along the order QUEUED < PROCESSING < RUNNING < COMPLETED by at most
one step (or creates it as QUEUED, or leaves it unchanged); the only
out-of-order move is a jump from a non-terminal status to FAILED.  Hence the
status sequence of any run over any execution is non-decreasing along the
state machine. -/
theorem status_transitions_monotonic (ops : List Op) (op : Op) (id : String) :
    AllowedStep (statusOf (exec ops) id) (statusOf (exec (ops ++ [op])) id) := by
  rw [exec_append_single]
  exact applyOp_allowed_step op (exec ops) id

/-- Claim C8.  Redelivering a QueueMessage any number of times after its run
has reached a terminal status (COMPLETED or FAILED) mutates nothing: the
Execution Worker re-fetches the run, finds it terminal, and discards the
message, so the store is unchanged. -/
theorem redelivery_idempotent (s : Store) (msg : QueueMessage) (copyOk : Bool)
    (err : String) (n : ℕ)
    (h : ∃ st, statusOf s msg.testRunId = some st ∧ isTerminal st = true) :
    (processMessage msg copyOk err)^[n] s = s := by
  apply Function.iterate_fixed
  obtain ⟨st, hst, hterm⟩ := h
  simp [processMessage, hst, hterm]

/-- Witness for C8: a store holding run-1 COMPLETED is untouched by five
redeliveries of run-1's message. -/
theorem redelivery_idempotent_witness :
    (∃ st, statusOf [("run-1", finishedRecord)] msg1.testRunId = some st ∧
        isTerminal st = true) ∧
      (processMessage msg1 true "err")^[5] [("run-1", finishedRecord)] =
        [("run-1", finishedRecord)] :=
  ⟨⟨.completed, rfl, rfl⟩,
    redelivery_idempotent [("run-1", finishedRecord)] msg1 true "err" 5
      ⟨.completed, rfl, rfl⟩⟩

end TestStudio
